import Mathlib

/-
  Verification of the KRISHIVA mobile front-end (home, profile, signup screens).

  The screens are React Native components; their handlers are async functions
  whose observable behaviour is a sequence of storage operations, subsystem
  calls, log lines, alerts and navigations.  We embed each handler as a pure
  Lean function from its inputs (current AsyncStorage contents, form state,
  and the outcome of each fallible platform or subsystem call) to its results
  (new storage contents, recorded subsystem calls, emitted effects).

  Platform primitives are modelled as follows:
  - AsyncStorage is a flat string-keyed map (association list).  A single
    getItem / setItem / removeItem call is atomic: when it fails, the store
    is unchanged.  Fallibility is passed in as an explicit success flag.
  - JSON.stringify on the session object (four string fields, fixed key
    order id, name, email, loginTime) is `serializeUser`; JSON.parse on such
    a payload is `parseUser`.  Escaping of quote and backslash characters is
    modelled; other JSON escapes do not affect any stated property.
  - JS String.prototype.trim, toLowerCase and includes are `jsTrim`,
    `jsToLower` and `hasSubstr` over the character list of the string.
  - The sync subsystem (initDatabase, setupSyncListener, checkAndSyncData,
    createUser, implemented in ../database/database) is outside the excerpt:
    calls to it are recorded in a `SyncCall` trace and their outcomes are
    inputs; `createUser` alone is modelled from the spec where a claim
    needs its behaviour.
-/

/-! ## AsyncStorage model -/

/-- AsyncStorage contents: an association list from string keys to string
values.  Later entries for the same key are shadowed, mirroring a map. -/
abbrev Store := List (String × String)

/-- AsyncStorage.getItem: the value stored under a key, if any. -/
def getItem : Store → String → Option String
  | [], _ => none
  | (k, v) :: rest, key => if k = key then some v else getItem rest key

/-- AsyncStorage.removeItem: drop every entry for the key. -/
def removeItem : Store → String → Store
  | [], _ => []
  | (k, v) :: rest, key =>
    if k = key then removeItem rest key else (k, v) :: removeItem rest key

/-- AsyncStorage.setItem: bind the key to the value, replacing any previous
binding. -/
def setItem (store : Store) (key v : String) : Store :=
  (key, v) :: removeItem store key

/-! ## Observable effects of a handler -/

/-- User-visible or logged effects a handler can produce, in order. -/
inductive Effect where
  /-- console.error with a fixed tag and the error detail. -/
  | logError (tag msg : String)
  /-- Alert.alert with a title and a message. -/
  | alert (title msg : String)
  /-- router.replace to a route. -/
  | navReplace (route : String)
  /-- Focusing the email input (setFocus in the signup screen). -/
  | focusEmail
  deriving Repr, DecidableEq

/-- Calls from the screens into the sync subsystem and session storage,
recorded in invocation order. -/
inductive SyncCall where
  | initDatabase
  | getSessionItem
  | setupSyncListener
  | checkAndSyncData
  deriving Repr, DecidableEq

/-! ## JS string primitives used by the screens -/

/-- JS String.prototype.trim: strip leading and trailing whitespace. -/
def jsTrim (s : String) : String :=
  ⟨((s.data.dropWhile Char.isWhitespace).reverse.dropWhile Char.isWhitespace).reverse⟩

/-- JS String.prototype.toLowerCase (ASCII range, which covers the flows
shown). -/
def jsToLower (s : String) : String :=
  ⟨s.data.map Char.toLower⟩

/-- Does `l` start with `pat`?  (Helper for substring search.) -/
def headMatches : List Char → List Char → Bool
  | _, [] => true
  | [], _ :: _ => false
  | c :: cs, d :: ds => c = d && headMatches cs ds

/-- Substring occurrence over character lists. -/
def hasSubstrChars : List Char → List Char → Bool
  | l, pat =>
    headMatches l pat ||
      match l with
      | [] => false
      | _ :: cs => hasSubstrChars cs pat

/-- JS String.prototype.includes: does `s` contain `pat` as a substring? -/
def hasSubstr (s pat : String) : Bool :=
  hasSubstrChars s.data pat.data

/-! ## Session snapshot and its JSON encoding -/

/-- The session snapshot stored under the `userSession` key (interface
UserData in profile.tsx). -/
structure UserData where
  id : String
  name : String
  email : String
  loginTime : String
  deriving Repr, DecidableEq

/-- JSON string escaping for the characters that need it for an exact
round trip (quote and backslash). -/
def escChars : List Char → List Char
  | [] => []
  | c :: cs => if c = '\"' ∨ c = '\\' then '\\' :: c :: escChars cs else c :: escChars cs

/-- A JSON string literal: opening quote, escaped content, closing quote. -/
def quoteStr (s : String) : List Char :=
  '\"' :: (escChars s.data ++ ['\"'])

/-- One `"key":"value"` member of the session object. -/
def jsonMember (key value : String) : List Char :=
  quoteStr key ++ ':' :: quoteStr value

/-- JSON.stringify of the session object, keys in declaration order. -/
def serializeUser (u : UserData) : String :=
  ⟨'\x7b' :: (jsonMember "id" u.id ++ ',' ::
    (jsonMember "name" u.name ++ ',' ::
      (jsonMember "email" u.email ++ ',' ::
        (jsonMember "loginTime" u.loginTime ++ ['\x7d']))))⟩

/-- Scan a JSON string body up to its closing quote, undoing `escChars`;
returns the decoded content and the remaining input. -/
def unescChars : List Char → Option (List Char × List Char)
  | [] => none
  | c :: cs =>
    if c = '\"' then some ([], cs)
    else if c = '\\' then
      match cs with
      | [] => none
      | d :: ds =>
        match unescChars ds with
        | none => none
        | some (s, r) => some (d :: s, r)
    else
      match unescChars cs with
      | none => none
      | some (s, r) => some (c :: s, r)

/-- Consume an exact literal from the front of the input. -/
def stripLit : List Char → List Char → Option (List Char)
  | [], l => some l
  | _ :: _, [] => none
  | c :: cs, d :: ds => if c = d then stripLit cs ds else none

/-- Parse one `"key":"value"` member, returning the decoded value. -/
def parseMember (key : String) (l : List Char) : Option (String × List Char) := do
  let l ← stripLit (quoteStr key ++ [':', '\"']) l
  let (v, rest) ← unescChars l
  pure (⟨v⟩, rest)

/-- JSON.parse specialised to the session object produced by
`serializeUser` (the only payload ever written under the session key by the
shown screens). -/
def parseUser (s : String) : Option UserData := do
  let l ← stripLit ['\x7b'] s.data
  let (id, l) ← parseMember "id" l
  let l ← stripLit [','] l
  let (name, l) ← parseMember "name" l
  let l ← stripLit [','] l
  let (email, l) ← parseMember "email" l
  let l ← stripLit [','] l
  let (loginTime, l) ← parseMember "loginTime" l
  let l ← stripLit ['\x7d'] l
  match l with
  | [] => some ⟨id, name, email, loginTime⟩
  | _ :: _ => none

/-! ## Home screen (app/index.tsx) -/

/-- A teardown closure.  The only one in the code clears the periodic sync
interval. -/
inductive Cleanup where
  | clearSyncInterval
  deriving Repr, DecidableEq

/-- Result of running the startup routine `initApp` inside the home-screen
mount effect. -/
structure InitAppResult where
  /-- Subsystem and session-storage calls, in order. -/
  calls : List SyncCall
  /-- Logs and alerts emitted by the routine. -/
  effects : List Effect
  /-- The repeat period of the installed sync interval, when one was
  installed by setInterval. -/
  intervalPeriodMs : Option Nat
  /-- The value returned by the inner async function (the clearInterval
  teardown on the successful path).  It is the resolution value of a
  promise no caller consumes. -/
  innerCleanup : Option Cleanup
  deriving Repr, DecidableEq

/-- The startup routine of the home screen (initApp, app/index.tsx lines
28 to 64): initialize the database, read the session key, arm the sync
listener, run one eager reconciliation pass, then install the 5-minute
periodic sync interval.  Any failure is caught by the surrounding
try/catch, which logs it and shows the initialization-failure alert.
Inputs are the outcomes of the two fallible awaited steps and the stored
session payload. -/
def initApp (dbInit : Except String Unit) (_session : Option String)
    (sync : Except String Unit) : InitAppResult :=
  match dbInit with
  | .error e =>
    { calls := [.initDatabase]
      effects := [.logError "Error initializing app:" e,
        .alert "Error" "Failed to initialize the application. Please restart the app."]
      intervalPeriodMs := none
      innerCleanup := none }
  | .ok _ =>
    match sync with
    | .error e =>
      { calls := [.initDatabase, .getSessionItem, .setupSyncListener, .checkAndSyncData]
        effects := [.logError "Error initializing app:" e,
          .alert "Error" "Failed to initialize the application. Please restart the app."]
        intervalPeriodMs := none
        innerCleanup := none }
    | .ok _ =>
      { calls := [.initDatabase, .getSessionItem, .setupSyncListener, .checkAndSyncData]
        effects := []
        intervalPeriodMs := some (5 * 60 * 1000)
        innerCleanup := some .clearSyncInterval }

/-- What React receives as the cleanup of the home-screen mount effect.
The effect callback body is the statement `initApp();` with no return
statement, so the callback returns undefined: React gets no cleanup.  (The
clearInterval closure is returned by the inner async `initApp` instead,
inside a promise that is discarded.) -/
def homeMountCleanup (_r : InitAppResult) : Option Cleanup :=
  none

/-- The periodic sync interval is still live after the home screen
unmounts: an interval was installed and React holds no cleanup for the
effect that installed it. -/
def timerAliveAfterUnmount (r : InitAppResult) : Bool :=
  r.intervalPeriodMs.isSome && (homeMountCleanup r).isNone

/-- Result of one tick of the periodic sync interval. -/
structure TickResult where
  calls : List SyncCall
  effects : List Effect
  /-- The rejection of the fire-and-forget checkAndSyncData() promise,
  which no handler in this code observes. -/
  uncaughtRejection : Option String
  deriving Repr, DecidableEq

/-- One tick of the 5-minute interval (app/index.tsx lines 51 to 53).  The
callback invokes checkAndSyncData() without await and attaches no catch,
so a failing pass produces no log and no alert from this code; its
rejection escapes unhandled. -/
def periodicTick (sync : Except String Unit) : TickResult :=
  { calls := [.checkAndSyncData]
    effects := []
    uncaughtRejection := match sync with | .error e => some e | .ok _ => none }

/-- Result of the manual Sync Now action. -/
structure ManualSyncResult where
  calls : List SyncCall
  effects : List Effect
  deriving Repr, DecidableEq

/-- The manual Sync Now handler (handleManualSync, app/index.tsx lines 121
to 132): await one reconciliation pass; on success alert success, on
failure log the error and alert a retryable sync error. -/
def handleManualSync (sync : Except String Unit) : ManualSyncResult :=
  { calls := [.checkAndSyncData]
    effects :=
      match sync with
      | .ok _ => [.alert "Success" "Data synchronized successfully!"]
      | .error e =>
        [.logError "Sync error:" e,
          .alert "Error" "Failed to sync data. Please try again."] }

/-! ## Local Store (spec-modelled) -/

/-- A Local Store user record. -/
structure DBUser where
  id : Nat
  name : String
  email : String
  password : String
  deriving Repr, DecidableEq

/-- The Local Store user table. -/
abbrev UserDB := List DBUser

/-- Modelled from the spec: `createUser(name, email, password)` is
implemented in ../database/database, which is not part of the excerpted
source.  Per the spec it fails (throws) when the email already exists,
signaled by an error message containing a detectable substring (the
consumer dispatches on the substring `already exists`), and on success
inserts a record and returns an object whose `insertId` identifies it. -/
def createUser (db : UserDB) (name email password : String) :
    Except String (UserDB × Nat) :=
  if db.any (fun u => u.email == email) then
    .error "User with this email already exists"
  else
    let insertId := db.length + 1
    .ok (db ++ [⟨insertId, name, email, password⟩], insertId)

/-! ## Signup screen (app/signup.tsx) -/

/-- The character class of the email pattern: anything but whitespace and
the at sign. -/
def emailChar (c : Char) : Bool :=
  !c.isWhitespace && !(c == '@')

/-- A nonempty run of email-pattern characters. -/
def nonemptyAtoms (l : List Char) : Bool :=
  !l.isEmpty && l.all emailChar

/-- validateEmail (app/signup.tsx lines 469 to 472): test against the
pattern anchored at both ends consisting of one or more non-space
non-at characters, an at sign, one or more such characters, a dot, and one
or more such characters.  Backtracking over the split points is the
existential search over positions of the at sign and the dot. -/
def validateEmail (email : String) : Bool :=
  let cs := email.data
  (List.range cs.length).any fun i =>
    cs.getD i ' ' == '@' &&
    nonemptyAtoms (cs.take i) &&
    (let rest := cs.drop (i + 1)
     (List.range rest.length).any fun j =>
       rest.getD j ' ' == '.' &&
       nonemptyAtoms (rest.take j) &&
       nonemptyAtoms (rest.drop (j + 1)))

/-- The signup form fields. -/
structure SignupForm where
  name : String
  email : String
  password : String
  confirmPassword : String
  deriving Repr, DecidableEq

/-- The terminal outcome of one handleSignup run. -/
inductive SignupOutcome where
  /-- An input-validation alert; the run stops before calling createUser. -/
  | validationError (msg : String)
  /-- The success alert; its OK button clears the form and redirects to
  login. -/
  | success (insertId : Nat)
  /-- The duplicate-email alert, offering Go to Login and OK. -/
  | duplicateEmail (msg : String)
  /-- The generic Signup Failed alert. -/
  | genericFailure (msg : String)
  deriving Repr, DecidableEq

/-- The catch block of handleSignup (app/signup.tsx lines 523 to 558):
dispatch on whether the error message contains the substring
`already exists`. -/
def signupCatch (msg : String) : SignupOutcome :=
  if hasSubstr msg "already exists" then .duplicateEmail msg
  else .genericFailure msg

/-- Result of one handleSignup run. -/
structure SignupResult where
  outcome : SignupOutcome
  /-- The arguments passed to createUser, when the call was reached. -/
  createUserArgs : Option (String × String × String)
  /-- The Local Store after the run. -/
  db : UserDB
  deriving Repr, DecidableEq

/-- handleSignup (app/signup.tsx lines 474 to 559): validate the form,
then call createUser with the trimmed name, the trimmed lowercased email
and the password as typed; gate success on a truthy insertId; dispatch
failures through the catch block. -/
def handleSignup (f : SignupForm) (db : UserDB) : SignupResult :=
  if jsTrim f.name = "" ∨ jsTrim f.email = "" ∨ f.password = "" ∨ f.confirmPassword = "" then
    ⟨.validationError "Please fill in all fields", none, db⟩
  else if validateEmail (jsTrim f.email) = false then
    ⟨.validationError "Please enter a valid email address", none, db⟩
  else if f.password ≠ f.confirmPassword then
    ⟨.validationError "Passwords do not match", none, db⟩
  else if f.password.length < 6 then
    ⟨.validationError "Password must be at least 6 characters long", none, db⟩
  else
    let args := (jsTrim f.name, jsToLower (jsTrim f.email), f.password)
    match createUser db args.1 args.2.1 args.2.2 with
    | .ok (db2, insertId) =>
      if insertId ≠ 0 then ⟨.success insertId, some args, db2⟩
      else ⟨signupCatch "Failed to create account. Please try again.", some args, db2⟩
    | .error msg => ⟨signupCatch msg, some args, db⟩

/-- The OK button of the success alert (app/signup.tsx lines 507 to 517):
clear every form field and replace the route with login. -/
def successOkPress (_f : SignupForm) : SignupForm × List Effect :=
  (⟨"", "", "", ""⟩, [.navReplace "/login"])

/-- The Go to Login button of the duplicate-email alert (app/signup.tsx
lines 536 to 544): clear email, password and confirm password, then
replace the route with login. -/
def duplicateGoToLogin (f : SignupForm) : SignupForm × List Effect :=
  ({ f with email := "", password := "", confirmPassword := "" },
    [.navReplace "/login"])

/-- The OK button of the duplicate-email alert (app/signup.tsx lines 545
to 552): clear the email field and refocus it. -/
def duplicateOkPress (f : SignupForm) : SignupForm × List Effect :=
  ({ f with email := "" }, [.focusEmail])

/-! ## Profile screen (app/profile.tsx) -/

/-- loadUserData (app/profile.tsx lines 37 to 55): read the session key
and parse it; with no session, alert and offer a redirect to login; the
catch logs and alerts a load failure.  Returns the loaded snapshot and the
emitted effects. -/
def loadUserDataResult (store : Store) : Option UserData × List Effect :=
  match getItem store "userSession" with
  | some s =>
    match parseUser s with
    | some u => (some u, [])
    | none =>
      (none, [.logError "Error loading user data:" "JSON parse error",
        .alert "Error" "Failed to load profile data."])
  | none =>
    (none, [.alert "Error" "No user session found. Please login again."])

/-- Result of one handleSaveProfile run. -/
structure SaveResult where
  store : Store
  /-- The userData state after the run. -/
  userData : Option UserData
  effects : List Effect
  deriving Repr, DecidableEq

/-- handleSaveProfile (app/profile.tsx lines 57 to 83): reject an empty
trimmed name; otherwise build the updated snapshot (the loaded snapshot
with its name replaced by the trimmed edited name) and write its
serialization under the session key in a single setItem call.  `writeOk`
is the outcome of that call; on failure the catch logs and alerts a
retryable error and the store is unchanged (one atomic key write). -/
def handleSaveProfile (store : Store) (userData : UserData)
    (editedName : String) (writeOk : Bool) : SaveResult :=
  if jsTrim editedName = "" then
    { store := store
      userData := some userData
      effects := [.alert "Error" "Name cannot be empty"] }
  else
    let updatedUser := { userData with name := jsTrim editedName }
    if writeOk then
      { store := setItem store "userSession" (serializeUser updatedUser)
        userData := some updatedUser
        effects := [.alert "Success" "Profile updated successfully!"] }
    else
      { store := store
        userData := some userData
        effects := [.logError "Error saving profile:" "write failed",
          .alert "Error" "Failed to update profile. Please try again."] }

/-- Result of a confirmed logout. -/
structure LogoutResult where
  store : Store
  /-- The Local Store, carried as a frame: logout performs no operation on
  it. -/
  db : UserDB
  effects : List Effect
  deriving Repr, DecidableEq

/-- The destructive Logout choice of the profile screen (app/profile.tsx
lines 96 to 104): remove the session key, then replace the route with the
home screen; the catch logs and alerts a retryable error.  `removeOk` is
the outcome of the single removeItem call. -/
def profileLogoutConfirm (store : Store) (db : UserDB) (removeOk : Bool) :
    LogoutResult :=
  if removeOk then
    { store := removeItem store "userSession"
      db := db
      effects := [.navReplace "/"] }
  else
    { store := store
      db := db
      effects := [.logError "Logout error:" "remove failed",
        .alert "Error" "Failed to logout. Please try again."] }

/-- The destructive Logout choice of the home screen (app/index.tsx lines
75 to 85): remove the session key, reset the login state and show the
logged-out alert; the catch logs and alerts a retryable error. -/
def homeLogoutConfirm (store : Store) (db : UserDB) (removeOk : Bool) :
    LogoutResult :=
  if removeOk then
    { store := removeItem store "userSession"
      db := db
      effects := [.alert "Success" "You have been logged out successfully."] }
  else
    { store := store
      db := db
      effects := [.logError "Logout error:" "remove failed",
        .alert "Error" "Failed to logout. Please try again."] }

/-! ## Storage lemmas -/

theorem getItem_removeItem_self (st : Store) (k : String) :
    getItem (removeItem st k) k = none := by
  induction st with
  | nil => rfl
  | cons p rest ih =>
    obtain ⟨k', v⟩ := p
    by_cases h : k' = k
    · simp [removeItem, h, ih]
    · simp [removeItem, getItem, h, ih]

theorem getItem_removeItem_ne (st : Store) (k k' : String) (h : k' ≠ k) :
    getItem (removeItem st k) k' = getItem st k' := by
  induction st with
  | nil => rfl
  | cons p rest ih =>
    obtain ⟨k0, v⟩ := p
    by_cases h0 : k0 = k
    · subst h0
      have hne : ¬ k0 = k' := fun hc => h hc.symm
      simp [removeItem, getItem, hne, ih]
    · by_cases h1 : k0 = k'
      · simp [removeItem, getItem, h0, h1, h]
      · simp [removeItem, getItem, h0, h1, h, ih]

theorem getItem_setItem_self (st : Store) (k v : String) :
    getItem (setItem st k v) k = some v := by
  simp [setItem, getItem]

theorem getItem_setItem_ne (st : Store) (k v k' : String) (h : k' ≠ k) :
    getItem (setItem st k v) k' = getItem st k' := by
  have hne : k ≠ k' := fun hc => h hc.symm
  simp [setItem, getItem, hne, getItem_removeItem_ne st k k' h]

/-! ## JSON round-trip lemmas -/

theorem unescChars_escChars (s r : List Char) :
    unescChars (escChars s ++ '\"' :: r) = some (s, r) := by
  induction s with
  | nil =>
    rw [escChars, List.nil_append, unescChars.eq_def]
    simp
  | cons c cs ih =>
    by_cases h : c = '\"' ∨ c = '\\'
    · rw [escChars, if_pos h, List.cons_append, List.cons_append, unescChars.eq_def]
      have hne : ('\\' : Char) ≠ '\"' := by decide
      simp [hne, ih]
    · push_neg at h
      rw [escChars, if_neg (by tauto), List.cons_append, unescChars.eq_def]
      simp [h.1, h.2, ih]

theorem stripLit_append (lit r : List Char) :
    stripLit lit (lit ++ r) = some r := by
  induction lit with
  | nil => rfl
  | cons c cs ih => simp [stripLit, ih]

theorem parseMember_jsonMember (k v : String) (r : List Char) :
    parseMember k (jsonMember k v ++ r) = some (v, r) := by
  have h : jsonMember k v ++ r
      = (quoteStr k ++ [':', '\"']) ++ (escChars v.data ++ '\"' :: r) := by
    simp [jsonMember, quoteStr]
  rw [parseMember, h, stripLit_append]
  simp [unescChars_escChars]

theorem parseUser_serializeUser (u : UserData) :
    parseUser (serializeUser u) = some u := by
  rw [parseUser, serializeUser]
  show (Option.bind (stripLit ['\x7b'] ('\x7b' :: _)) _) = _
  rw [show stripLit ['\x7b'] ('\x7b' :: (jsonMember "id" u.id ++ ',' ::
    (jsonMember "name" u.name ++ ',' ::
      (jsonMember "email" u.email ++ ',' ::
        (jsonMember "loginTime" u.loginTime ++ ['\x7d'])))))
      = some (jsonMember "id" u.id ++ ',' ::
    (jsonMember "name" u.name ++ ',' ::
      (jsonMember "email" u.email ++ ',' ::
        (jsonMember "loginTime" u.loginTime ++ ['\x7d'])))) from by simp [stripLit]]
  simp [parseMember_jsonMember, stripLit]

/-! ## Claim theorems -/

/-- Is the effect a user-visible alert? -/
def isAlertEffect : Effect → Bool
  | .alert _ _ => true
  | _ => false

/-- Claim C1, counterexample.  The claim says the startup pass and every
periodic-timer pass swallow a sync failure into a log only, with a
user-visible error exactly for manual triggers.  At a concrete failing
sync outcome, the startup pass surfaces a user-visible alert, and a
periodic-timer pass produces no log at all: its rejection escapes every
handler in this code. -/
theorem claim1_counterexample :
    ((initApp (.ok ()) none (.error "network request failed")).effects.any
      isAlertEffect = true) ∧
    (periodicTick (.error "network request failed")).effects = [] ∧
    (periodicTick (.error "network request failed")).uncaughtRejection =
      some "network request failed" := by
  decide

/-- Claim C1, amended.  A manually triggered sync failure is caught,
logged and surfaced as a retryable error alert, and a manual success
alerts success; the startup pass catches and logs its sync failure but
additionally surfaces the blocking initialization-failure alert; a
periodic-timer pass attaches no handler, so its failure produces no log
and no alert from this code and its rejection escapes unhandled. -/
theorem claim1_sync_failure_surfacing :
    ∀ (e : String) (session : Option String),
    (handleManualSync (.error e)).effects =
      [.logError "Sync error:" e,
        .alert "Error" "Failed to sync data. Please try again."] ∧
    (handleManualSync (.ok ())).effects =
      [.alert "Success" "Data synchronized successfully!"] ∧
    (initApp (.ok ()) session (.error e)).effects =
      [.logError "Error initializing app:" e,
        .alert "Error" "Failed to initialize the application. Please restart the app."] ∧
    (periodicTick (.error e)).effects = [] ∧
    (periodicTick (.error e)).uncaughtRejection = some e := by
  intro e session
  exact ⟨rfl, rfl, rfl, rfl, rfl⟩

/-- Claim C2.  The claim says the periodic sync timer is cancelled when
the home screen unmounts.  In the code the clearInterval teardown is the
return value of the inner async function initApp, which the mount effect
invokes without consuming its promise; the effect callback itself returns
nothing, so React receives no cleanup and the interval survives unmount.
Evaluated on the successful startup path: the interval is installed, the
teardown exists only as the discarded inner return value, React holds no
cleanup, and the timer is still alive after unmount. -/
theorem claim2_timer_survives_unmount :
    (initApp (.ok ()) none (.ok ())).intervalPeriodMs = some (5 * 60 * 1000) ∧
    (initApp (.ok ()) none (.ok ())).innerCleanup = some .clearSyncInterval ∧
    homeMountCleanup (initApp (.ok ()) none (.ok ())) = none ∧
    timerAliveAfterUnmount (initApp (.ok ()) none (.ok ())) = true := by
  decide

/-- Claim C3.  On the successful startup path the home screen calls, in
order: initDatabase, the session read, setupSyncListener, then exactly one
eager checkAndSyncData; the periodic interval is installed with a period
of exactly 5 * 60 * 1000 milliseconds and each tick invokes
checkAndSyncData once; the manual Sync Now action invokes it once on
demand. -/
theorem claim3_sync_invocations :
    ∀ (session : Option String) (s : Except String Unit),
    (initApp (.ok ()) session (.ok ())).calls =
      [.initDatabase, .getSessionItem, .setupSyncListener, .checkAndSyncData] ∧
    (initApp (.ok ()) session (.ok ())).calls.count .checkAndSyncData = 1 ∧
    (initApp (.ok ()) session (.ok ())).intervalPeriodMs = some (5 * 60 * 1000) ∧
    (periodicTick s).calls = [.checkAndSyncData] ∧
    (handleManualSync s).calls = [.checkAndSyncData] := by
  intro session s
  exact ⟨rfl, rfl, rfl, rfl, rfl⟩

/-- Claim C4.  With the Local Store already holding the normalized email,
createUser fails with an error whose message contains the substring
detected by the UI, the signup run lands on the duplicate-email alert
offering the Go to Login redirect, and any error message without that
substring is dispatched to the generic signup-failure alert instead. -/
theorem claim4_duplicate_email_detection (f : SignupForm) (db : UserDB) (m : String)
    (h1 : ¬ jsTrim f.name = "") (h2 : ¬ jsTrim f.email = "")
    (h3 : ¬ f.password = "") (h4 : ¬ f.confirmPassword = "")
    (h5 : validateEmail (jsTrim f.email) = true)
    (h6 : f.password = f.confirmPassword)
    (h7 : ¬ f.password.length < 6)
    (hdup : db.any (fun u => u.email == jsToLower (jsTrim f.email)) = true)
    (hm : hasSubstr m "already exists" = false) :
    createUser db (jsTrim f.name) (jsToLower (jsTrim f.email)) f.password =
      .error "User with this email already exists" ∧
    hasSubstr "User with this email already exists" "already exists" = true ∧
    (handleSignup f db).outcome =
      .duplicateEmail "User with this email already exists" ∧
    (∀ g : SignupForm, (duplicateGoToLogin g).2 = [.navReplace "/login"]) ∧
    signupCatch m = .genericFailure m := by
  have hc : createUser db (jsTrim f.name) (jsToLower (jsTrim f.email)) f.password
      = .error "User with this email already exists" := by
    simp [createUser, hdup]
  have hsub : hasSubstr "User with this email already exists" "already exists" = true := by
    decide
  refine ⟨hc, hsub, ?_, fun g => rfl, ?_⟩
  · simp only [handleSignup]
    rw [if_neg (by tauto), if_neg (by simp [h5]), if_neg (by simp [h6]), if_neg h7]
    simp only [hc]
    simp [signupCatch, hsub]
  · simp [signupCatch, hm]

/-- Claim C4, witness at the spec example: retrying signup for
asha@x.com lands on the duplicate-email alert, while an unrelated error
message takes the generic path. -/
theorem claim4_witness :
    (handleSignup ⟨"Asha Rao", "ASHA@x.com", "secret1", "secret1"⟩
        [⟨1, "Asha Rao", "asha@x.com", "secret1"⟩]).outcome =
      .duplicateEmail "User with this email already exists" ∧
    signupCatch "network down" = .genericFailure "network down" := by
  have h := claim4_duplicate_email_detection
    ⟨"Asha Rao", "ASHA@x.com", "secret1", "secret1"⟩
    [⟨1, "Asha Rao", "asha@x.com", "secret1"⟩] "network down"
    (by decide) (by decide) (by decide) (by decide) (by decide) (by decide)
    (by decide) (by decide) (by decide)
  exact ⟨h.2.2.1, h.2.2.2.2⟩

/-- Claim C5.  A valid signup submission with a previously unused email
calls createUser with the trimmed name, the trimmed lowercased email and
the password exactly as typed, the call succeeds inserting the record,
the truthy insertId gates the success path, and the success confirmation
redirects to login. -/
theorem claim5_signup_normalization (f : SignupForm) (db : UserDB)
    (h1 : ¬ jsTrim f.name = "") (h2 : ¬ jsTrim f.email = "")
    (h3 : ¬ f.password = "") (h4 : ¬ f.confirmPassword = "")
    (h5 : validateEmail (jsTrim f.email) = true)
    (h6 : f.password = f.confirmPassword)
    (h7 : ¬ f.password.length < 6)
    (hfresh : db.any (fun u => u.email == jsToLower (jsTrim f.email)) = false) :
    (handleSignup f db).createUserArgs =
      some (jsTrim f.name, jsToLower (jsTrim f.email), f.password) ∧
    (handleSignup f db).outcome = .success (db.length + 1) ∧
    (handleSignup f db).db =
      db ++ [⟨db.length + 1, jsTrim f.name, jsToLower (jsTrim f.email), f.password⟩] ∧
    (successOkPress f).2 = [.navReplace "/login"] := by
  have hc : createUser db (jsTrim f.name) (jsToLower (jsTrim f.email)) f.password
      = .ok (db ++ [⟨db.length + 1, jsTrim f.name, jsToLower (jsTrim f.email), f.password⟩],
          db.length + 1) := by
    simp [createUser, hfresh]
  have hrun : handleSignup f db =
      ⟨.success (db.length + 1),
        some (jsTrim f.name, jsToLower (jsTrim f.email), f.password),
        db ++ [⟨db.length + 1, jsTrim f.name, jsToLower (jsTrim f.email), f.password⟩]⟩ := by
    simp only [handleSignup]
    rw [if_neg (by tauto), if_neg (by simp [h5]), if_neg (by simp [h6]), if_neg h7]
    simp only [hc]
    simp
  rw [hrun]
  exact ⟨rfl, rfl, rfl, rfl⟩

/-- Claim C5, witness at the spec example: signup with name Asha Rao and
email ASHA@x.com on an empty store calls createUser with the email
normalized to asha@x.com and the password as typed, and succeeds. -/
theorem claim5_witness :
    (handleSignup ⟨"Asha Rao", "ASHA@x.com", "secret1", "secret1"⟩ []).createUserArgs =
      some ("Asha Rao", "asha@x.com", "secret1") ∧
    (handleSignup ⟨"Asha Rao", "ASHA@x.com", "secret1", "secret1"⟩ []).outcome =
      .success 1 := by
  have h := claim5_signup_normalization
    ⟨"Asha Rao", "ASHA@x.com", "secret1", "secret1"⟩ []
    (by decide) (by decide) (by decide) (by decide) (by decide) (by decide)
    (by decide) (by decide)
  exact ⟨by rw [h.1]; decide, by rw [h.2.1]; decide⟩

/-- Claim C6.  Saving a profile edit with a nonempty trimmed name writes
under the session key the serialization of the loaded snapshot with its
name replaced by the trimmed edit, and reading the session key back after
the save parses to a snapshot whose name is exactly the trimmed edit. -/
theorem claim6_profile_save_roundtrip (store : Store) (s : UserData) (n : String)
    (h : ¬ jsTrim n = "") :
    (handleSaveProfile store s n true).store =
      setItem store "userSession" (serializeUser { s with name := jsTrim n }) ∧
    (loadUserDataResult (handleSaveProfile store s n true).store).1 =
      some { s with name := jsTrim n } ∧
    ((loadUserDataResult (handleSaveProfile store s n true).store).1.map
      UserData.name) = some (jsTrim n) := by
  have hs : (handleSaveProfile store s n true).store
      = setItem store "userSession" (serializeUser { s with name := jsTrim n }) := by
    simp [handleSaveProfile, h]
  have hload : (loadUserDataResult (handleSaveProfile store s n true).store).1
      = some { s with name := jsTrim n } := by
    rw [hs]
    simp [loadUserDataResult, getItem_setItem_self, parseUser_serializeUser]
  exact ⟨hs, hload, by rw [hload]; rfl⟩

/-- Claim C6, witness: a concrete snapshot and edit, evaluated through
serialization, the store write and the parse. -/
theorem claim6_witness :
    (loadUserDataResult (handleSaveProfile
        [("userSession", serializeUser ⟨"7", "Old Name", "asha@x.com", "2024-01-01"⟩)]
        ⟨"7", "Old Name", "asha@x.com", "2024-01-01"⟩ "  Asha Rao " true).store).1 =
      some ⟨"7", "Asha Rao", "asha@x.com", "2024-01-01"⟩ := by
  have h := claim6_profile_save_roundtrip
    [("userSession", serializeUser ⟨"7", "Old Name", "asha@x.com", "2024-01-01"⟩)]
    ⟨"7", "Old Name", "asha@x.com", "2024-01-01"⟩ "  Asha Rao " (by decide)
  rw [h.2.1]; decide

/-- Claim C7.  A confirmed logout, on either screen, removes exactly the
userSession key: afterwards that key reads back empty, every other key
reads back unchanged, and the Local Store user records are untouched. -/
theorem claim7_logout_frame (store : Store) (db : UserDB) :
    getItem (profileLogoutConfirm store db true).store "userSession" = none ∧
    (∀ k, k ≠ "userSession" →
      getItem (profileLogoutConfirm store db true).store k = getItem store k) ∧
    (profileLogoutConfirm store db true).db = db ∧
    getItem (homeLogoutConfirm store db true).store "userSession" = none ∧
    (∀ k, k ≠ "userSession" →
      getItem (homeLogoutConfirm store db true).store k = getItem store k) ∧
    (homeLogoutConfirm store db true).db = db := by
  refine ⟨?_, fun k hk => ?_, rfl, ?_, fun k hk => ?_, rfl⟩
  · simp [profileLogoutConfirm, getItem_removeItem_self]
  · simp [profileLogoutConfirm, getItem_removeItem_ne store "userSession" k hk]
  · simp [homeLogoutConfirm, getItem_removeItem_self]
  · simp [homeLogoutConfirm, getItem_removeItem_ne store "userSession" k hk]

/-- Claim C7, witness: logging out of a store holding the session and one
unrelated key removes only the session. -/
theorem claim7_witness :
    getItem (profileLogoutConfirm [("userSession", "snap"), ("settings", "v1")]
      [⟨1, "Asha Rao", "asha@x.com", "secret1"⟩] true).store "userSession" = none ∧
    getItem (profileLogoutConfirm [("userSession", "snap"), ("settings", "v1")]
      [⟨1, "Asha Rao", "asha@x.com", "secret1"⟩] true).store "settings" = some "v1" ∧
    (profileLogoutConfirm [("userSession", "snap"), ("settings", "v1")]
      [⟨1, "Asha Rao", "asha@x.com", "secret1"⟩] true).db =
      [⟨1, "Asha Rao", "asha@x.com", "secret1"⟩] := by
  have h := claim7_logout_frame [("userSession", "snap"), ("settings", "v1")]
    [⟨1, "Asha Rao", "asha@x.com", "secret1"⟩]
  exact ⟨h.1, by rw [h.2.1 "settings" (by decide)]; decide, h.2.2.1⟩

/-- Claim C8.  A failing persistence operation leaves the prior store
intact: when the profile-save write throws, the store (and in particular
the session key) is exactly what it was, with no partial write; when the
logout removal throws, on either screen, the store still holds the
session snapshot unchanged. -/
theorem claim8_failure_atomicity (store : Store) (u : UserData) (n : String)
    (db : UserDB) :
    (handleSaveProfile store u n false).store = store ∧
    getItem (handleSaveProfile store u n false).store "userSession" =
      getItem store "userSession" ∧
    (profileLogoutConfirm store db false).store = store ∧
    (homeLogoutConfirm store db false).store = store := by
  have hsave : (handleSaveProfile store u n false).store = store := by
    by_cases h : jsTrim n = "" <;> simp [handleSaveProfile, h]
  exact ⟨hsave, by rw [hsave], rfl, rfl⟩

/-- Claim C9.  Saving a profile edit changes only the name field of the
stored session snapshot: reading the session key back after the save
yields the snapshot with the prior id, email and loginTime and the
trimmed new name. -/
theorem claim9_save_only_name (store : Store) (s : UserData) (n : String)
    (h : ¬ jsTrim n = "") :
    (loadUserDataResult (handleSaveProfile store s n true).store).1 =
      some ⟨s.id, jsTrim n, s.email, s.loginTime⟩ := by
  simp [handleSaveProfile, h, loadUserDataResult, getItem_setItem_self,
    parseUser_serializeUser]

/-- Claim C9, witness: a concrete save preserves id, email and loginTime
and changes only the name. -/
theorem claim9_witness :
    (loadUserDataResult (handleSaveProfile []
        ⟨"42", "Before", "user@site.org", "2023-12-31"⟩ "After" true).store).1 =
      some ⟨"42", "After", "user@site.org", "2023-12-31"⟩ :=
  claim9_save_only_name [] ⟨"42", "Before", "user@site.org", "2023-12-31"⟩
    "After" (by decide)

/-- Claim C10, counterexample.  The claim says both duplicate-email
recovery choices clear email, password and confirm password.  The OK
choice clears only the email: at a concrete form, the password and
confirm-password fields still hold their typed values afterwards. -/
theorem claim10_counterexample :
    (duplicateOkPress ⟨"Asha Rao", "asha@x.com", "secret1", "secret1"⟩).1 =
      ⟨"Asha Rao", "", "secret1", "secret1"⟩ ∧
    ¬ (duplicateOkPress ⟨"Asha Rao", "asha@x.com", "secret1", "secret1"⟩).1.password
      = "" := by
  decide

/-- Claim C10, amended.  Go to Login clears email, password and confirm
password, preserves the name, and navigates to the login screen; OK
clears only the email field and refocuses it, preserving name, password
and confirm password; only Go to Login navigates. -/
theorem claim10_duplicate_choices (f : SignupForm) :
    duplicateGoToLogin f =
      ({ f with email := "", password := "", confirmPassword := "" },
        [.navReplace "/login"]) ∧
    (duplicateGoToLogin f).1.name = f.name ∧
    duplicateOkPress f = ({ f with email := "" }, [.focusEmail]) ∧
    (duplicateOkPress f).1.name = f.name ∧
    (duplicateOkPress f).1.password = f.password ∧
    (duplicateOkPress f).1.confirmPassword = f.confirmPassword :=
  ⟨rfl, rfl, rfl, rfl, rfl, rfl⟩
